import Mathlib

/-!
Shallow embedding of `blackbox_image_generator.py`.

The module defines a single client class `BlackboxImageGenerator` with
an operation `generate_image(prompt, output_image_path, prints)` that

  1. builds a JSON payload from the prompt,
  2. POSTs it (`requests.post` + `response.raise_for_status()`),
  3. slices the decoded body with `[4:-1]`,
  4. checks the slice is truthy and starts with `https://`,
  5. calls `_download_image(image_url, output_image_path)` which GETs the
     URL and writes the bytes to the file on HTTP 200,
  6. returns `ImageGenerationStatus.SUCCESS.value`.

HTTP transports are modelled as oracles passed in as functions: the POST
oracle receives the JSON payload and yields either a raised
`requests.exceptions.RequestException` (with its message) or a response;
the GET oracle receives the URL string.  The filesystem is a map from
path to optional byte content.  Python exceptions raised by the code are
modelled as an `Except` error channel whose error type mirrors the
exception classes of the source, paired with the (possibly updated)
filesystem.  `print` side effects are not modelled.
-/

/-- Bytes of an HTTP body (`response.content` for the GET). -/
abbrev ByteL : Type := List Nat

/-- The filesystem: each path maps to the bytes currently stored there,
or `none` when no file exists at that path. -/
def FS : Type := String → Option ByteL

/-- `open(path, "wb")` followed by `file.write(content)`: truncates any
existing file at `path` and stores exactly `content`. -/
def writeBinaryFile (fs : FS) (path : String) (content : ByteL) : FS :=
  fun p => if p = path then some content else fs p

/-- A `requests` response, restricted to the two fields the source
reads: `status_code` and `content` (already UTF-8 decoded for the POST
response, raw bytes for the GET response). -/
structure Response (β : Type) where
  status_code : Nat
  content : β
deriving DecidableEq

/-- Outcome of one `requests.post` / `requests.get` call: either the
transport raised a `requests.exceptions.RequestException` carrying a
message, or it returned a `Response`. -/
inductive Transport (β : Type) where
  | raises (msg : String)
  | returns (resp : Response β)
deriving DecidableEq

/-- The exception classes of the source (all subclasses of
`BlackboxAPIError`), each carrying its message string. -/
inductive BlackboxAPIError where
  | ImageDownloadError (msg : String)
  | ImageGenerationError (msg : String)
  | StatusCodeError (msg : String)
deriving DecidableEq

/-- `str(e)` for a `BlackboxAPIError`: the message it was built with. -/
def BlackboxAPIError.message : BlackboxAPIError → String
  | .ImageDownloadError m => m
  | .ImageGenerationError m => m
  | .StatusCodeError m => m

/-- The `ImageGenerationStatus` enum of the source. -/
inductive ImageGenerationStatus where
  | SUCCESS
  | ERROR_NO_URL
  | ERROR_EXCEPTION
deriving DecidableEq

/-- `.value` of each `ImageGenerationStatus` member. -/
def ImageGenerationStatus.value : ImageGenerationStatus → String
  | .SUCCESS => "Image Generated Successfully"
  | .ERROR_NO_URL => "No Image download URL found"
  | .ERROR_EXCEPTION => "An exception occurred"

/-- JSON values, used to model the request payload dictionary. -/
inductive Json where
  | null
  | bool (b : Bool)
  | num (n : Nat)
  | str (s : String)
  | arr (elems : List Json)
  | obj (fields : List (String × Json))

/-- Field lookup in an association list of JSON object fields. -/
def jsonFieldGet : List (String × Json) → String → Option Json
  | [], _ => none
  | (k, v) :: rest, key => if k = key then some v else jsonFieldGet rest key

/-- Lookup of a field of a JSON object (`none` on non-objects). -/
def Json.getField : Json → String → Option Json
  | .obj fields, key => jsonFieldGet fields key
  | _, _ => none

/-- The `json_data` dictionary built by `generate_image` from the
prompt, field for field. -/
def json_data (prompt : String) : Json :=
  .obj [
    ("messages", .arr [
      .obj [
        ("id", .str ""),
        ("content", .str prompt),
        ("role", .str "user")
      ]
    ]),
    ("id", .str ""),
    ("previewToken", .null),
    ("userId", .null),
    ("codeModelMode", .bool true),
    ("agentMode", .obj []),
    ("trendingAgentMode", .obj []),
    ("isMicMode", .bool false),
    ("userSystemPrompt", .null),
    ("maxTokens", .num 1024),
    ("playgroundTopP", .null),
    ("playgroundTemperature", .null),
    ("isChromeExt", .bool false),
    ("githubToken", .str ""),
    ("clickedAnswer2", .bool false),
    ("clickedAnswer3", .bool false),
    ("clickedForceWebSearch", .bool false),
    ("visitFromDelta", .bool false),
    ("mobileClient", .bool false),
    ("userSelectedModel", .null),
    ("validated", .str "00f37b34-a166-4efb-bce5-1312d87f2f94"),
    ("imageGenerationMode", .bool true),
    ("webSearchModePrompt", .bool false),
    ("deepSearchMode", .bool false)
  ]

/-- The Python slice `s[4:-1]`: characters from index 4 up to but
excluding the last character; empty when the string has at most 5
characters (Python slicing clamps, it never raises). -/
def pySlice41 (s : String) : String :=
  String.mk ((s.data.drop 4).dropLast)

/-- `str.startswith(pre)` from Python, on the character lists. -/
def strStartsWith (s pre : String) : Bool :=
  List.isPrefixOf pre.data s.data

/-- `response.raise_for_status()` raises `requests.exceptions.HTTPError`
exactly when the status code is a 4xx or 5xx. -/
def raise_for_status_raises (status_code : Nat) : Bool :=
  decide (400 ≤ status_code) && decide (status_code < 600)

/-- The message of the `HTTPError` raised by `raise_for_status` for a
given status code (the full `requests` text also names the reason and
URL; only the fact that it mentions the status matters here). -/
def http_error_text (status_code : Nat) : String :=
  toString status_code ++ " Error"

/-- `BlackboxImageGenerator._download_image(image_url, output_image_path)`:
GET the URL; on `RequestException` raise
`ImageDownloadError("Error downloading image: {e}")`; on status 200 open
the file for binary write (truncating) and write the body; on any other
status raise `ImageDownloadError("Failed to download the image.")`.
Returns the raised exception or `()` together with the filesystem after
the call. -/
def download_image (image_url output_image_path : String)
    (get : String → Transport ByteL) (fs : FS) :
    Except BlackboxAPIError Unit × FS :=
  match get image_url with
  | .raises e =>
      (.error (.ImageDownloadError ("Error downloading image: " ++ e)), fs)
  | .returns response =>
      if response.status_code = 200 then
        (.ok (), writeBinaryFile fs output_image_path response.content)
      else
        (.error (.ImageDownloadError "Failed to download the image."), fs)

/-- The body of `generate_image`'s `try` block together with its
`except` clauses, applied to the result of the POST.  The `except`
clauses of the source: a `RequestException` (transport failure or the
`HTTPError` from `raise_for_status`) becomes
`StatusCodeError("Request failed: {e}")`; an `ImageGenerationError` is
re-raised unchanged; any other exception — in particular the
`ImageDownloadError` raised by `_download_image`, which is not an
`ImageGenerationError` — is wrapped as
`ImageGenerationError("An unexpected error occurred: {e}")`. -/
def process_post (postResult : Transport String) (output_image_path : String)
    (get : String → Transport ByteL) (fs : FS) :
    Except BlackboxAPIError String × FS :=
  match postResult with
  | .raises e =>
      (.error (.StatusCodeError ("Request failed: " ++ e)), fs)
  | .returns response =>
      if raise_for_status_raises response.status_code = true then
        (.error (.StatusCodeError
          ("Request failed: " ++ http_error_text response.status_code)), fs)
      else
        let image_url := pySlice41 response.content
        if image_url ≠ "" ∧ strStartsWith image_url "https://" = true then
          match download_image image_url output_image_path get fs with
          | (.ok _, fs2) => (.ok ImageGenerationStatus.SUCCESS.value, fs2)
          | (.error err, fs2) =>
              (.error (.ImageGenerationError
                ("An unexpected error occurred: " ++ err.message)), fs2)
        else
          (.error (.ImageGenerationError "No Image URL found."), fs)

/-- `BlackboxImageGenerator.generate_image(prompt, output_image_path)`:
build `json_data` from the prompt, POST it, and handle the response as
in the source.  `post` and `get` are the transport oracles; `fs` the
filesystem before the call.  The result pairs the returned status
string or raised exception with the filesystem after the call. -/
def generate_image (prompt output_image_path : String)
    (post : Json → Transport String) (get : String → Transport ByteL)
    (fs : FS) : Except BlackboxAPIError String × FS :=
  process_post (post (json_data prompt)) output_image_path get fs

/-- The empty filesystem. -/
def emptyFS : FS := fun _ => none

/-- The GET oracle used by the C6 witness. -/
def getOK : String → Transport ByteL := fun _ => .returns ⟨200, [7, 8]⟩

/-- A filesystem with pre-existing content at `"o.jpg"`. -/
def fsPre : FS := fun q => if q = "o.jpg" then some [9] else none


/-- C8: for every prompt, the payload has exactly one message entry,
with `id` the empty string, `content` the prompt and `role` `"user"`,
alongside `imageGenerationMode: true`, `codeModelMode: true`,
`maxTokens: 1024` and the fixed validation token. -/
theorem payload_fields_spec (prompt : String) :
    (json_data prompt).getField "messages" =
      some (.arr [.obj [("id", .str ""), ("content", .str prompt),
        ("role", .str "user")]]) ∧
    (json_data prompt).getField "imageGenerationMode" = some (.bool true) ∧
    (json_data prompt).getField "codeModelMode" = some (.bool true) ∧
    (json_data prompt).getField "maxTokens" = some (.num 1024) ∧
    (json_data prompt).getField "validated" =
      some (.str "00f37b34-a166-4efb-bce5-1312d87f2f94") :=
  ⟨rfl, rfl, rfl, rfl, rfl⟩

/-- C1 counterexample: with a well-framed POST body and a GET that
returns status 404, `generate_image` surfaces
`ImageGenerationError "An unexpected error occurred: ..."` — not the
`ImageDownloadError` that `_download_image` itself raises (second
conjunct), because the catch-all `except Exception` clause of
`generate_image` rewraps it. -/
theorem generate_wraps_download_failure_cex :
    (generate_image "a beautiful girl" "blackbox_generated_image.jpg"
        (fun _ => .returns ⟨200, "abcdhttps://a.com/xE"⟩)
        (fun _ => .returns ⟨404, []⟩) emptyFS).fst =
      .error (.ImageGenerationError
        "An unexpected error occurred: Failed to download the image.") ∧
    (download_image "https://a.com/x" "blackbox_generated_image.jpg"
        (fun _ => .returns ⟨404, []⟩) emptyFS).fst =
      .error (.ImageDownloadError "Failed to download the image.") :=
  ⟨rfl, rfl⟩

/-- C2 counterexample: with the POST body of the claim (three backticks
of framing on each side, 33 characters), the `[4:-1]` slice yields
`"ttps://example.com/img.jpg``"`, not the URL; `generate_image` fails
with the no-URL error and writes no file. -/
theorem end_to_end_triple_backtick_cex :
    pySlice41 "```https://example.com/img.jpg```" =
      "ttps://example.com/img.jpg``" ∧
    (generate_image "a beautiful girl" "blackbox_generated_image.jpg"
        (fun _ => .returns ⟨200, "```https://example.com/img.jpg```"⟩)
        (fun _ => .returns ⟨200, [255, 216]⟩) emptyFS).fst =
      .error (.ImageGenerationError "No Image URL found.") ∧
    (generate_image "a beautiful girl" "blackbox_generated_image.jpg"
        (fun _ => .returns ⟨200, "```https://example.com/img.jpg```"⟩)
        (fun _ => .returns ⟨200, [255, 216]⟩) emptyFS).snd
      "blackbox_generated_image.jpg" = none :=
  ⟨rfl, rfl, rfl⟩

/-- C2 amended: with a consistently framed POST body — four framing
characters before the URL and one after — `generate_image` extracts
`"https://example.com/img.jpg"`, issues the GET to exactly that URL,
overwrites the pre-existing output file with the mocked 200-status
bytes byte-for-byte, and returns `"Image Generated Successfully"`. -/
theorem end_to_end_framed_body :
    pySlice41 "````https://example.com/img.jpg`" =
      "https://example.com/img.jpg" ∧
    (generate_image "a beautiful girl" "blackbox_generated_image.jpg"
        (fun _ => .returns ⟨200, "````https://example.com/img.jpg`"⟩)
        (fun u => if u = "https://example.com/img.jpg"
                  then .returns ⟨200, [255, 216]⟩ else .raises "wrong url")
        (fun p => if p = "blackbox_generated_image.jpg"
                  then some [0, 1] else none)).fst =
      .ok "Image Generated Successfully" ∧
    (generate_image "a beautiful girl" "blackbox_generated_image.jpg"
        (fun _ => .returns ⟨200, "````https://example.com/img.jpg`"⟩)
        (fun u => if u = "https://example.com/img.jpg"
                  then .returns ⟨200, [255, 216]⟩ else .raises "wrong url")
        (fun p => if p = "blackbox_generated_image.jpg"
                  then some [0, 1] else none)).snd
      "blackbox_generated_image.jpg" = some [255, 216] :=
  ⟨rfl, rfl, rfl⟩

/-- `s[4:-1]` always has length `len(s) - 5` (truncated at zero). -/
lemma pySlice41_length (s : String) : (pySlice41 s).length = s.length - 5 := by
  show ((s.data.drop 4).dropLast).length = s.data.length - 5
  simp [List.length_dropLast, List.length_drop]
  omega

/-- `s[4:-1]` is the result of first cutting the last character, then
dropping the first four. -/
lemma pySlice41_data (s : String) :
    (pySlice41 s).data = (s.data.take (s.data.length - 1)).drop 4 := by
  show (s.data.drop 4).dropLast = _
  rw [List.dropLast_eq_take, List.drop_take, List.length_drop]
  congr 1

/-- A body of at most 5 characters slices to the empty string. -/
lemma pySlice41_empty_of_short (b : String) (hb : b.length ≤ 5) :
    pySlice41 b = "" := by
  have h := pySlice41_length b
  have h0 : (pySlice41 b).length = 0 := by omega
  cases hq : pySlice41 b with
  | mk data =>
    rw [hq] at h0
    have hdata : data = [] := List.length_eq_zero.mp h0
    rw [hdata]

/-- C3: for every POST body of length at least 5, the extracted
candidate has length `L - 5` and consists of the body's characters from
index 4 up to but excluding the last character (cut the last character,
then drop the first four). -/
theorem framing_slice_spec (s : String) (_h : 5 ≤ s.length) :
    (pySlice41 s).length = s.length - 5 ∧
    (pySlice41 s).data = (s.data.take (s.data.length - 1)).drop 4 :=
  ⟨pySlice41_length s, pySlice41_data s⟩

/-- Witness for C3 at the 14-character body `"abcdhttps://xY"`. -/
theorem framing_slice_spec_witness :
    5 ≤ ("abcdhttps://xY" : String).length ∧
    ((pySlice41 "abcdhttps://xY").length =
        ("abcdhttps://xY" : String).length - 5 ∧
      (pySlice41 "abcdhttps://xY").data =
        (("abcdhttps://xY" : String).data.take
          (("abcdhttps://xY" : String).data.length - 1)).drop 4) :=
  ⟨by decide, framing_slice_spec "abcdhttps://xY" (by decide)⟩

/-- C4: when the POST succeeds but the extracted candidate does not
start with `https://`, `generate_image` raises
`ImageGenerationError "No Image URL found."` for every GET oracle (no
GET is consulted) and leaves the filesystem untouched. -/
theorem no_url_error_no_download (prompt out : String) (s : Nat) (b : String)
    (get : String → Transport ByteL) (fs : FS)
    (hs : raise_for_status_raises s = false)
    (hu : strStartsWith (pySlice41 b) "https://" = false) :
    generate_image prompt out (fun _ => .returns ⟨s, b⟩) get fs =
      (.error (.ImageGenerationError "No Image URL found."), fs) := by
  simp [generate_image, process_post, hs, hu]

/-- Witness for C4: body `"abcdfooX"` yields candidate `"foo"`. -/
theorem no_url_error_no_download_witness :
    raise_for_status_raises 200 = false ∧
    strStartsWith (pySlice41 "abcdfooX") "https://" = false ∧
    generate_image "p" "o.jpg" (fun _ => .returns ⟨200, "abcdfooX"⟩)
      (fun _ => .raises "t") emptyFS =
      (.error (.ImageGenerationError "No Image URL found."), emptyFS) :=
  ⟨by decide, by decide,
    no_url_error_no_download "p" "o.jpg" 200 "abcdfooX"
      (fun _ => .raises "t") emptyFS (by decide) (by decide)⟩

/-- C5: when the POST raises a transport exception, or returns a 4xx/5xx
status (so `raise_for_status` raises), `generate_image` raises
`StatusCodeError "Request failed: ..."` wrapping the cause, for every
GET oracle, and leaves the filesystem untouched. -/
theorem post_failure_status_code_error (prompt out e : String) (s : Nat)
    (b : String) (get : String → Transport ByteL) (fs : FS)
    (hs : raise_for_status_raises s = true) :
    (generate_image prompt out (fun _ => .raises e) get fs =
      (.error (.StatusCodeError ("Request failed: " ++ e)), fs)) ∧
    (generate_image prompt out (fun _ => .returns ⟨s, b⟩) get fs =
      (.error (.StatusCodeError
        ("Request failed: " ++ http_error_text s)), fs)) := by
  constructor
  · simp [generate_image, process_post]
  · simp [generate_image, process_post, hs]

/-- Witness for C5 at a raised exception `"boom"` and at status 404. -/
theorem post_failure_status_code_error_witness :
    raise_for_status_raises 404 = true ∧
    ((generate_image "p" "o.jpg" (fun _ => .raises "boom")
        (fun _ => .raises "t") emptyFS =
      (.error (.StatusCodeError ("Request failed: " ++ "boom")), emptyFS)) ∧
     (generate_image "p" "o.jpg" (fun _ => .returns ⟨404, "body"⟩)
        (fun _ => .raises "t") emptyFS =
      (.error (.StatusCodeError
        ("Request failed: " ++ http_error_text 404)), emptyFS))) :=
  ⟨by decide,
    post_failure_status_code_error "p" "o.jpg" "boom" 404 "body"
      (fun _ => .raises "t") emptyFS (by decide)⟩

/-- C6: when the GET returns status 200 with body `B`, the download step
stores exactly `B` at the output path — replacing whatever was there,
whatever the previous filesystem held — and leaves every other path
unchanged. -/
theorem download_200_writes_bytes (image_url out p : String) (B : ByteL)
    (get : String → Transport ByteL) (fs : FS)
    (hget : get image_url = .returns ⟨200, B⟩) (hp : p ≠ out) :
    download_image image_url out get fs =
      (.ok (), writeBinaryFile fs out B) ∧
    (download_image image_url out get fs).snd out = some B ∧
    (download_image image_url out get fs).snd p = fs p := by
  refine ⟨?_, ?_, ?_⟩ <;> simp [download_image, hget, writeBinaryFile, hp]

/-- Witness for C6: the pre-existing file `[9]` at `"o.jpg"` is
replaced with the downloaded bytes `[7, 8]`. -/
theorem download_200_writes_bytes_witness :
    getOK "https://a" = .returns ⟨200, [7, 8]⟩ ∧
    ("other" : String) ≠ "o.jpg" ∧
    (download_image "https://a" "o.jpg" getOK fsPre =
        (.ok (), writeBinaryFile fsPre "o.jpg" [7, 8]) ∧
      (download_image "https://a" "o.jpg" getOK fsPre).snd "o.jpg" =
        some [7, 8] ∧
      (download_image "https://a" "o.jpg" getOK fsPre).snd "other" =
        fsPre "other") :=
  ⟨rfl, by decide,
    download_200_writes_bytes "https://a" "o.jpg" "other" [7, 8] getOK fsPre
      rfl (by decide)⟩

/-- C7: when the GET returns a status other than 200, the download step
raises `ImageDownloadError "Failed to download the image."` and returns
the filesystem exactly as it was: no file is created or modified. -/
theorem download_non_200_fs_unchanged (image_url out : String) (st : Nat)
    (B : ByteL) (get : String → Transport ByteL) (fs : FS)
    (hget : get image_url = .returns ⟨st, B⟩) (hst : st ≠ 200) :
    download_image image_url out get fs =
      (.error (.ImageDownloadError "Failed to download the image."), fs) := by
  simp [download_image, hget, hst]

/-- Witness for C7 at status 500. -/
theorem download_non_200_fs_unchanged_witness :
    (fun (_ : String) => Transport.returns (⟨500, []⟩ : Response ByteL))
      "https://a" = .returns ⟨500, []⟩ ∧
    (500 : Nat) ≠ 200 ∧
    download_image "https://a" "o.jpg"
        (fun _ => .returns ⟨500, []⟩) emptyFS =
      (.error (.ImageDownloadError "Failed to download the image."),
        emptyFS) :=
  ⟨rfl, by decide,
    download_non_200_fs_unchanged "https://a" "o.jpg" 500 []
      (fun _ => .returns ⟨500, []⟩) emptyFS rfl (by decide)⟩

/-- C1 amended: when the POST succeeds with a well-framed body but the
download step fails — the GET raises a transport exception, or returns
a status other than 200 — the `ImageDownloadError` raised inside
`_download_image` is caught by `generate_image`'s catch-all
`except Exception` clause (it is not an `ImageGenerationError`), so the
failure surfaces to the caller of `generate_image` rewrapped as
`ImageGenerationError "An unexpected error occurred: ..."`, and the
filesystem is untouched. -/
theorem generate_download_failure_wrapped (prompt out e : String)
    (s st : Nat) (b : String) (B : ByteL) (fs : FS)
    (hs : raise_for_status_raises s = false)
    (hne : pySlice41 b ≠ "")
    (hurl : strStartsWith (pySlice41 b) "https://" = true)
    (hst : st ≠ 200) :
    (generate_image prompt out (fun _ => .returns ⟨s, b⟩)
        (fun _ => .raises e) fs =
      (.error (.ImageGenerationError ("An unexpected error occurred: " ++
        ("Error downloading image: " ++ e))), fs)) ∧
    (generate_image prompt out (fun _ => .returns ⟨s, b⟩)
        (fun _ => .returns ⟨st, B⟩) fs =
      (.error (.ImageGenerationError
        "An unexpected error occurred: Failed to download the image."),
        fs)) := by
  constructor <;>
    simp [generate_image, process_post, download_image, hs, hne, hurl, hst,
      BlackboxAPIError.message]

/-- Witness for the amended C1: POST body `"abcdhttps://a.com/xE"`, GET
raising `"timeout"` in one case and returning status 404 in the other. -/
theorem generate_download_failure_wrapped_witness :
    raise_for_status_raises 200 = false ∧
    pySlice41 "abcdhttps://a.com/xE" ≠ "" ∧
    strStartsWith (pySlice41 "abcdhttps://a.com/xE") "https://" = true ∧
    (404 : Nat) ≠ 200 ∧
    ((generate_image "p" "o.jpg"
        (fun _ => .returns ⟨200, "abcdhttps://a.com/xE"⟩)
        (fun _ => .raises "timeout") emptyFS =
      (.error (.ImageGenerationError ("An unexpected error occurred: " ++
        ("Error downloading image: " ++ "timeout"))), emptyFS)) ∧
     (generate_image "p" "o.jpg"
        (fun _ => .returns ⟨200, "abcdhttps://a.com/xE"⟩)
        (fun _ => .returns ⟨404, []⟩) emptyFS =
      (.error (.ImageGenerationError
        "An unexpected error occurred: Failed to download the image."),
        emptyFS))) :=
  ⟨by decide, by decide, by decide, by decide,
    generate_download_failure_wrapped "p" "o.jpg" "timeout" 200 404
      "abcdhttps://a.com/xE" [] emptyFS
      (by decide) (by decide) (by decide) (by decide)⟩

/-- C9: the `[4:-1]` slice is total — its length is `L - 5` (truncated
at zero) for every body, with no out-of-range error possible — every
body of at most 5 characters yields the empty candidate, and
`generate_image` on such a body fails through the no-URL branch, for
every GET oracle, with the filesystem untouched. -/
theorem slice_total_short_body_no_url (s b prompt out : String) (st : Nat)
    (get : String → Transport ByteL) (fs : FS)
    (hb : b.length ≤ 5)
    (hst : raise_for_status_raises st = false) :
    (pySlice41 s).length = s.length - 5 ∧
    pySlice41 b = "" ∧
    generate_image prompt out (fun _ => .returns ⟨st, b⟩) get fs =
      (.error (.ImageGenerationError "No Image URL found."), fs) := by
  have hb2 := pySlice41_empty_of_short b hb
  refine ⟨pySlice41_length s, hb2, ?_⟩
  have hu : strStartsWith (pySlice41 b) "https://" = false := by
    rw [hb2]
    decide
  simp [generate_image, process_post, hst, hu]

/-- Witness for C9 at the empty body and the 5-character body
`"abcde"`, with status 204. -/
theorem slice_total_short_body_no_url_witness :
    ("abcde" : String).length ≤ 5 ∧
    raise_for_status_raises 204 = false ∧
    ((pySlice41 "").length = ("" : String).length - 5 ∧
      pySlice41 "abcde" = "" ∧
      generate_image "p" "o.jpg" (fun _ => .returns ⟨204, "abcde"⟩)
        (fun _ => .raises "t") emptyFS =
        (.error (.ImageGenerationError "No Image URL found."), emptyFS)) :=
  ⟨by decide, by decide,
    slice_total_short_body_no_url "" "abcde" "p" "o.jpg" 204
      (fun _ => .raises "t") emptyFS (by decide) (by decide)⟩

/-- C10: `generate_image` performs no validation of the prompt: for the
empty prompt the payload is still built, with the single message's
`content` equal to the empty string, the POST is still issued with that
payload (the call is exactly `process_post` of the POST oracle applied
to `json_data ""`), and with a successful mocked pipeline the call
completes with the success status rather than raising at the
interface. -/
theorem empty_prompt_no_validation (out : String)
    (post : Json → Transport String) (get : String → Transport ByteL)
    (fs : FS) :
    (json_data "").getField "messages" =
      some (.arr [.obj [("id", .str ""), ("content", .str ""),
        ("role", .str "user")]]) ∧
    generate_image "" out post get fs =
      process_post (post (json_data "")) out get fs ∧
    (generate_image "" "o.jpg"
        (fun _ => .returns ⟨200, "abcdhttps://a.com/xE"⟩)
        (fun _ => .returns ⟨200, [1, 2]⟩) emptyFS).fst =
      .ok "Image Generated Successfully" :=
  ⟨rfl, rfl, rfl⟩

/-- Witness for C10 at a concrete POST oracle. -/
theorem empty_prompt_no_validation_witness :
    (json_data "").getField "messages" =
      some (.arr [.obj [("id", .str ""), ("content", .str ""),
        ("role", .str "user")]]) ∧
    generate_image "" "w.jpg" (fun _ => .raises "t")
      (fun _ => .raises "t") emptyFS =
      process_post (Transport.raises "t") "w.jpg"
        (fun _ => .raises "t") emptyFS ∧
    (generate_image "" "o.jpg"
        (fun _ => .returns ⟨200, "abcdhttps://a.com/xE"⟩)
        (fun _ => .returns ⟨200, [1, 2]⟩) emptyFS).fst =
      .ok "Image Generated Successfully" :=
  empty_prompt_no_validation "w.jpg" (fun _ => .raises "t")
    (fun _ => .raises "t") emptyFS

/-- Witness for C8 at the prompt of the example entry point. -/
theorem payload_fields_spec_witness :
    (json_data "a beautiful girl").getField "messages" =
      some (.arr [.obj [("id", .str ""),
        ("content", .str "a beautiful girl"), ("role", .str "user")]]) ∧
    (json_data "a beautiful girl").getField "imageGenerationMode" =
      some (.bool true) ∧
    (json_data "a beautiful girl").getField "codeModelMode" =
      some (.bool true) ∧
    (json_data "a beautiful girl").getField "maxTokens" =
      some (.num 1024) ∧
    (json_data "a beautiful girl").getField "validated" =
      some (.str "00f37b34-a166-4efb-bce5-1312d87f2f94") :=
  payload_fields_spec "a beautiful girl"
